import Mathlib

/-!
Verification of `ai_edge_torch/generative/examples/qwen/qwen.py` and
`ai_edge_torch/generative/test/test_model_conversion_large.py`.

Python objects are mutable references, so configuration objects live in an
explicit heap (lists indexed by allocation address); attribute assignment is
an update of the heap cell.  Scalar hyperparameters become `Nat`/`Int`,
floating-point literals become the exact rationals they denote in the source
text, and strings stay strings.
-/

namespace AiEdge

/-- Address of an allocated Python object. -/
abbrev Addr := Nat

/-- Update the cell at index `i` of a list, leaving every other cell alone. -/
def listUpd (l : List α) (i : Nat) (f : α → α) : List α :=
  l.mapIdx (fun j a => if j = i then f a else a)

/-- Modelled from the spec: the generative-layers library's activation kinds
(`model_config.ActivationType`); only `SILU` is used by the sources. -/
inductive ActivationType where
  | SILU
  | GELU
deriving DecidableEq, Repr

/-- Modelled from the spec: the generative-layers library's feed-forward kinds
(`model_config.FeedForwardType`); only `GATED` is used by the sources. -/
inductive FeedForwardType where
  | GATED
  | SEQUENTIAL
deriving DecidableEq, Repr

/-- Modelled from the spec: the generative-layers library's normalization kinds
(`model_config.NormalizationType`); only `RMS_NORM` is used by the sources. -/
inductive NormalizationType where
  | RMS_NORM
  | LAYER_NORM
deriving DecidableEq, Repr

/-- Modelled from the spec: `model_config.ActivationConfig`, as instantiated
by `qwen.py`. -/
structure ActivationConfig where
  type : ActivationType
deriving DecidableEq, Repr

/-- Modelled from the spec: `model_config.AttentionConfig`, with the fields
that `qwen.py` sets. -/
structure AttentionConfig where
  num_heads : Nat
  head_dim : Nat
  num_query_groups : Nat
  rotary_base : Nat
  rotary_percentage : ℚ
  qkv_use_bias : Bool
deriving DecidableEq, Repr

/-- Modelled from the spec: `model_config.FeedForwardConfig`, with the fields
that `qwen.py` sets. -/
structure FeedForwardConfig where
  type : FeedForwardType
  activation : ActivationConfig
  intermediate_size : Nat
deriving DecidableEq, Repr

/-- Modelled from the spec: `model_config.NormalizationConfig`, with the
fields that `qwen.py` sets. -/
structure NormalizationConfig where
  type : NormalizationType
  epsilon : ℚ
deriving DecidableEq, Repr

/-- Modelled from the spec: `model_config.TransformerBlockConfig`.  Its
sub-config attributes are Python references, so here they are heap
addresses. -/
structure TransformerBlockConfig where
  attn_config : Addr
  ff_config : Addr
  pre_attention_norm_config : Addr
  post_attention_norm_config : Addr
deriving DecidableEq, Repr

/-- Modelled from the spec: `model_config.ModelConfig`, with the fields that
`qwen.py` sets.  `block_configs` holds the single block config `qwen.py`
passes; `final_norm_config` is a reference, hence an address. -/
structure ModelConfig where
  vocab_size : Nat
  num_layers : Nat
  max_seq_len : Nat
  embedding_dim : Nat
  kv_cache_max_len : Int
  block_configs : TransformerBlockConfig
  final_norm_config : Addr
  enable_hlfb : Bool
deriving DecidableEq, Repr

/-- Modelled from the spec: `ModelConfig.block_config(idx)` returns the single
shared block config when `block_configs` is not a list, as in `qwen.py`. -/
def ModelConfig.block_config (c : ModelConfig) (_idx : Nat) : TransformerBlockConfig :=
  c.block_configs

/-- The heap of config objects allocated during one builder call: a store per
object kind, with the list index as the address. -/
structure Heap where
  attns : List AttentionConfig
  ffs : List FeedForwardConfig
  norms : List NormalizationConfig
deriving DecidableEq, Repr

def Heap.attnAt (h : Heap) (a : Addr) : Option AttentionConfig := h.attns[a]?

def Heap.ffAt (h : Heap) (a : Addr) : Option FeedForwardConfig := h.ffs[a]?

def Heap.normAt (h : Heap) (a : Addr) : Option NormalizationConfig := h.norms[a]?

def Heap.updAttn (h : Heap) (a : Addr) (f : AttentionConfig → AttentionConfig) : Heap :=
  { h with attns := listUpd h.attns a f }

def Heap.updFF (h : Heap) (a : Addr) (f : FeedForwardConfig → FeedForwardConfig) : Heap :=
  { h with ffs := listUpd h.ffs a f }

def Heap.updNorm (h : Heap) (a : Addr) (f : NormalizationConfig → NormalizationConfig) : Heap :=
  { h with norms := listUpd h.norms a f }

/-- The result of one config-builder call: the allocated objects together with
the returned `ModelConfig`. -/
structure ConfigState where
  heap : Heap
  config : ModelConfig
deriving DecidableEq, Repr

/-- The default of `qwen.py`'s `kv_cache_max_len: int = 1024` parameter. -/
def default_kv_cache_max_len : Int := 1024

/-- `qwen.get_3b_model_config`: allocates one attention config, one
feed-forward config and one normalization config, wires the one block config
and the model config to them by reference, and returns the model config. -/
def get_3b_model_config (kv_cache_max_len : Int) : ConfigState :=
  let attn_config : AttentionConfig :=
    { num_heads := 16
      head_dim := 128
      num_query_groups := 2
      rotary_base := 1000000
      rotary_percentage := 1
      qkv_use_bias := true }
  let ff_config : FeedForwardConfig :=
    { type := FeedForwardType.GATED
      activation := { type := ActivationType.SILU }
      intermediate_size := 11008 }
  let norm_config : NormalizationConfig :=
    { type := NormalizationType.RMS_NORM
      epsilon := (1 : ℚ) / 1000000 }
  let heap : Heap := { attns := [attn_config], ffs := [ff_config], norms := [norm_config] }
  let block_config : TransformerBlockConfig :=
    { attn_config := 0
      ff_config := 0
      pre_attention_norm_config := 0
      post_attention_norm_config := 0 }
  let config : ModelConfig :=
    { vocab_size := 151936
      num_layers := 36
      max_seq_len := 32768
      embedding_dim := 2048
      kv_cache_max_len := kv_cache_max_len
      block_configs := block_config
      final_norm_config := 0
      enable_hlfb := true }
  { heap := heap, config := config }

/-- `qwen.get_1_5b_model_config`: starts from the 3B config and mutates the
shared attention and feed-forward objects and two scalar fields in place. -/
def get_1_5b_model_config (kv_cache_max_len : Int) : ConfigState :=
  let s := get_3b_model_config kv_cache_max_len
  let block_config := s.config.block_config 0
  let h := s.heap.updAttn block_config.attn_config (fun a => { a with num_heads := 12 })
  let h := h.updFF block_config.ff_config (fun f => { f with intermediate_size := 8960 })
  let c := { s.config with num_layers := 28, embedding_dim := 1536 }
  { heap := h, config := c }

/-- `qwen.get_0_5b_model_config`: starts from the 3B config and mutates the
shared attention and feed-forward objects and two scalar fields in place. -/
def get_0_5b_model_config (kv_cache_max_len : Int) : ConfigState :=
  let s := get_3b_model_config kv_cache_max_len
  let block_config := s.config.block_config 0
  let h := s.heap.updAttn block_config.attn_config
    (fun a => { a with num_heads := 14, head_dim := 64 })
  let h := h.updFF block_config.ff_config (fun f => { f with intermediate_size := 4864 })
  let c := { s.config with num_layers := 24, embedding_dim := 896 }
  { heap := h, config := c }

/-- `qwen.get_fake_model_config(**kwargs)`: forwards its keyword arguments to
`get_3b_model_config` and then overwrites three fields. -/
def get_fake_model_config (kv_cache_max_len : Int) : ConfigState :=
  let s := get_3b_model_config kv_cache_max_len
  let c := { s.config with vocab_size := 128, num_layers := 2 }
  let h := s.heap.updFF (c.block_config 0).ff_config (fun f => { f with intermediate_size := 64 })
  { heap := h, config := c }

/-- `get_fake_model_config()` with no keyword arguments: `get_3b_model_config`
supplies its own default. -/
def get_fake_model_config_noargs : ConfigState :=
  get_fake_model_config default_kv_cache_max_len

/-- A fully dereferenced, value-level reading of a `ConfigState`: every scalar
field of the returned config plus the objects seen through each reference
(attention, feed-forward, pre-attention norm, post-attention norm, final
norm). -/
structure ConfigView where
  vocab_size : Nat
  num_layers : Nat
  max_seq_len : Nat
  embedding_dim : Nat
  kv_cache_max_len : Int
  enable_hlfb : Bool
  attn : Option AttentionConfig
  ff : Option FeedForwardConfig
  pre_norm : Option NormalizationConfig
  post_norm : Option NormalizationConfig
  final_norm : Option NormalizationConfig
deriving DecidableEq, Repr

def ConfigState.view (s : ConfigState) : ConfigView :=
  let b := s.config.block_config 0
  { vocab_size := s.config.vocab_size
    num_layers := s.config.num_layers
    max_seq_len := s.config.max_seq_len
    embedding_dim := s.config.embedding_dim
    kv_cache_max_len := s.config.kv_cache_max_len
    enable_hlfb := s.config.enable_hlfb
    attn := s.heap.attnAt b.attn_config
    ff := s.heap.ffAt b.ff_config
    pre_norm := s.heap.normAt b.pre_attention_norm_config
    post_norm := s.heap.normAt b.post_attention_norm_config
    final_norm := s.heap.normAt s.config.final_norm_config }

/-- A PyTorch tensor attribute: `data` is a reference to the underlying
storage, so two tensors with the same `data` address alias. -/
structure Tensor where
  data : Addr
deriving DecidableEq, Repr

/-- Modelled from the spec: the attribute state a `tiny_llama.TinyLlama`
module has after its constructor runs — a token-embedding layer and an
lm-head layer, each with its own weight tensor over distinct fresh storage,
the stack of transformer blocks built from `config.num_layers`, and the
module's training flag (a fresh PyTorch module starts in training mode). -/
structure TinyLlamaModule where
  tok_embedding_weight : Tensor
  lm_head_weight : Tensor
  num_transformer_blocks : Nat
  training : Bool
deriving DecidableEq, Repr

/-- Modelled from the spec: the `TinyLlama` superclass constructor.  It
allocates distinct storages for the embedding weight and the head-projection
weight. -/
def TinyLlama_init (config : ModelConfig) : TinyLlamaModule :=
  { tok_embedding_weight := { data := 0 }
    lm_head_weight := { data := 1 }
    num_transformer_blocks := config.num_layers
    training := true }

/-- `Qwen.__init__`: runs the `TinyLlama` constructor, then re-points the head
projection weight at the embedding weight
(`self.lm_head.weight.data = self.tok_embedding.weight.data`). -/
def Qwen_init (config : ModelConfig) : TinyLlamaModule :=
  let m := TinyLlama_init config
  { m with lm_head_weight := { m.lm_head_weight with data := m.tok_embedding_weight.data } }

/-- `model.eval()`: leaves every attribute alone except the training flag. -/
def TinyLlamaModule.evalMode (m : TinyLlamaModule) : TinyLlamaModule :=
  { m with training := false }

/-- Modelled from the spec: `loading_utils.ModelLoader.TensorNames`, the
tensor-name table mapping model attributes to checkpoint tensor names; the
`lm_head` entry may be mapped (a name) or absent (`None`). -/
structure TensorNames where
  ff_up_proj : String
  ff_down_proj : String
  ff_gate_proj : String
  attn_query_proj : String
  attn_key_proj : String
  attn_value_proj : String
  attn_output_proj : String
  pre_attn_norm : String
  post_attn_norm : String
  embedding : String
  final_norm : String
  lm_head : Option String
deriving DecidableEq, Repr

/-- Modelled from the spec: the module-level `tiny_llama.TENSOR_NAMES` table,
with per-layer names containing a `\x7b\x7d` placeholder for the layer
index. -/
def tiny_llama_TENSOR_NAMES_value : TensorNames :=
  { ff_up_proj := "model.layers.\x7b\x7d.mlp.up_proj"
    ff_down_proj := "model.layers.\x7b\x7d.mlp.down_proj"
    ff_gate_proj := "model.layers.\x7b\x7d.mlp.gate_proj"
    attn_query_proj := "model.layers.\x7b\x7d.self_attn.q_proj"
    attn_key_proj := "model.layers.\x7b\x7d.self_attn.k_proj"
    attn_value_proj := "model.layers.\x7b\x7d.self_attn.v_proj"
    attn_output_proj := "model.layers.\x7b\x7d.self_attn.o_proj"
    pre_attn_norm := "model.layers.\x7b\x7d.input_layernorm"
    post_attn_norm := "model.layers.\x7b\x7d.post_attention_layernorm"
    embedding := "model.embed_tokens"
    final_norm := "model.norm"
    lm_head := some "lm_head" }

/-- The module-level state relevant to importing the qwen module: a heap of
`TensorNames` objects, the address `tiny_llama.TENSOR_NAMES` holds, and the
address `qwen.TENSOR_NAMES` holds once the qwen module has been imported. -/
structure ModuleState where
  names_heap : List TensorNames
  tiny_llama_TENSOR_NAMES : Addr
  qwen_TENSOR_NAMES : Option Addr
deriving DecidableEq, Repr

/-- Module state after importing `tiny_llama` but before importing `qwen`:
one `TensorNames` object, owned by `tiny_llama`. -/
def state_after_tiny_llama_import : ModuleState :=
  { names_heap := [tiny_llama_TENSOR_NAMES_value]
    tiny_llama_TENSOR_NAMES := 0
    qwen_TENSOR_NAMES := none }

/-- `copy.copy` of the `TensorNames` object at `a`: allocates a fresh object
with the same attribute values and returns its address. -/
def copy_copy_names (heap : List TensorNames) (a : Addr) : List TensorNames × Addr :=
  (heap ++ (heap[a]?).toList, heap.length)

/-- The module-level statements of `qwen.py`:
`TENSOR_NAMES = copy.copy(tiny_llama.TENSOR_NAMES)` followed by
`TENSOR_NAMES.lm_head = None`. -/
def import_qwen (s : ModuleState) : ModuleState :=
  let (heap, a) := copy_copy_names s.names_heap s.tiny_llama_TENSOR_NAMES
  let heap := listUpd heap a (fun t => { t with lm_head := none })
  { s with names_heap := heap, qwen_TENSOR_NAMES := some a }

/-- The checkpoint tensor names the model's own parameters require from the
qwen tensor-name table: every mapped entry, `lm_head` only when mapped. -/
def required_checkpoint_names (t : TensorNames) : List String :=
  [t.ff_up_proj, t.ff_down_proj, t.ff_gate_proj, t.attn_query_proj,
   t.attn_key_proj, t.attn_value_proj, t.attn_output_proj,
   t.pre_attn_norm, t.post_attn_norm, t.embedding, t.final_norm]
  ++ t.lm_head.toList

/-- Modelled from the spec: `ModelLoader.load(model, strict)` reads the
checkpoint and copies tensors into the model; with `strict=True` it raises
when some required tensor has no checkpoint entry, with `strict=False` it
loads what is present and succeeds. -/
def ModelLoader_load (strict : Bool) (required : List String)
    (checkpoint_keys : List String) (m : TinyLlamaModule) :
    Except String TinyLlamaModule :=
  if strict && required.any (fun n => !(checkpoint_keys.contains n)) then
    Except.error "missing tensors in checkpoint"
  else
    Except.ok m

/-- The qwen module's `TENSOR_NAMES` table as `_build_model` sees it. -/
def qwen_TENSOR_NAMES_value : TensorNames :=
  { tiny_llama_TENSOR_NAMES_value with lm_head := none }

/-- `qwen._build_model`: builds a `Qwen` model, loads the checkpoint with
`strict=False`, puts the model in eval mode and returns it.  The checkpoint
is its list of tensor names. -/
def build_model_impl (checkpoint_keys : List String) (config : ModelConfig) :
    Except String TinyLlamaModule :=
  let model := Qwen_init config
  (ModelLoader_load false (required_checkpoint_names qwen_TENSOR_NAMES_value)
      checkpoint_keys model).map
    TinyLlamaModule.evalMode

/-- `qwen.build_3b_model`. -/
def build_3b_model (checkpoint_keys : List String) (kv_cache_max_len : Int) :
    Except String TinyLlamaModule :=
  build_model_impl checkpoint_keys (get_3b_model_config kv_cache_max_len).config

/-- `qwen.build_1_5b_model`. -/
def build_1_5b_model (checkpoint_keys : List String) (kv_cache_max_len : Int) :
    Except String TinyLlamaModule :=
  build_model_impl checkpoint_keys (get_1_5b_model_config kv_cache_max_len).config

/-- `qwen.build_0_5b_model`. -/
def build_0_5b_model (checkpoint_keys : List String) (kv_cache_max_len : Int) :
    Except String TinyLlamaModule :=
  build_model_impl checkpoint_keys (get_0_5b_model_config kv_cache_max_len).config

/-! `test_model_conversion_large.py` exercises external conversion and
comparison utilities; what is verifiable in this repository is the data each
test builds and the arguments it hands to those utilities, so each test
function is embedded as the trace of those calls. -/

/-- How the test obtained its KV cache: `kv_cache.KVCache.from_model_config`
applied to the named fake config. -/
inductive KVCacheSource where
  | from_model_config (config_of : String)
deriving DecidableEq, Repr

/-- One call to `test_utils.compare_tflite_torch`, with the arguments the
test passes. -/
structure CompareCall where
  tokens : List (List Int)
  input_pos : List Int
  kv : KVCacheSource
  signature_name : String
  atol : ℚ
  rtol : ℚ
deriving DecidableEq, Repr

/-- The trace of one test function: the model it builds, the signature it
converts under (`none` = plain `ai_edge_torch.convert`, `some name` =
`ai_edge_torch.signature(name, ...)`), the sample inputs, the comparison
call, and whether the test asserts the comparison returned `True`. -/
structure TestTrace where
  model : String
  convert_signature : Option String
  sample_tokens : List (List Int)
  sample_input_pos : List Int
  sample_kv : KVCacheSource
  compare : CompareCall
  asserts_compare_true : Bool
deriving DecidableEq, Repr

/-- `tokens[0, :4] = idx`: overwrite the first `vals.length` entries of a row,
leaving the rest. -/
def overwrite_head (row : List Int) (vals : List Int) : List Int :=
  row.mapIdx (fun i x => if i < vals.length then vals.getD i x else x)

/-- The token tensor every test builds: `torch.full((1, 10), 0)` of longs,
then the first four entries of row 0 set to `[1, 2, 3, 4]`. -/
def sample_tokens_value : List (List Int) :=
  let idx : List Int := [1, 2, 3, 4]
  [overwrite_head (List.replicate 10 0) idx]

/-- The input-position tensor every test builds: `torch.arange(0, 10)`. -/
def sample_input_pos_value : List Int :=
  (List.range 10).map Int.ofNat

/-- `TestModelConversion.test_gemma`. -/
def test_gemma : TestTrace :=
  let tokens := sample_tokens_value
  let input_pos := sample_input_pos_value
  let kv := KVCacheSource.from_model_config "gemma.get_fake_model_config()"
  { model := "gemma.Gemma"
    convert_signature := none
    sample_tokens := tokens
    sample_input_pos := input_pos
    sample_kv := kv
    compare :=
      { tokens := tokens
        input_pos := input_pos
        kv := kv
        signature_name := "serving_default"
        atol := (1 : ℚ) / 100
        rtol := (1 : ℚ) / 100000 }
    asserts_compare_true := true }

/-- `TestModelConversion.test_gemma2`. -/
def test_gemma2 : TestTrace :=
  let prefill_tokens := sample_tokens_value
  let prefill_input_pos := sample_input_pos_value
  let kv := KVCacheSource.from_model_config "gemma2.get_fake_model_config()"
  { model := "gemma2.Gemma2"
    convert_signature := some "prefill"
    sample_tokens := prefill_tokens
    sample_input_pos := prefill_input_pos
    sample_kv := kv
    compare :=
      { tokens := prefill_tokens
        input_pos := prefill_input_pos
        kv := kv
        signature_name := "prefill"
        atol := (1 : ℚ) / 10
        rtol := (1 : ℚ) / 1000 }
    asserts_compare_true := true }

/-- `TestModelConversion.test_phi2`. -/
def test_phi2 : TestTrace :=
  let tokens := sample_tokens_value
  let input_pos := sample_input_pos_value
  let kv := KVCacheSource.from_model_config "phi2.get_fake_model_config()"
  { model := "phi2.Phi2"
    convert_signature := none
    sample_tokens := tokens
    sample_input_pos := input_pos
    sample_kv := kv
    compare :=
      { tokens := tokens
        input_pos := input_pos
        kv := kv
        signature_name := "serving_default"
        atol := (1 : ℚ) / 1000
        rtol := (1 : ℚ) / 1000 }
    asserts_compare_true := true }

/-- The three test functions of `TestModelConversion`. -/
def all_tests : List TestTrace := [test_gemma, test_gemma2, test_phi2]

/-- Modelled from the spec: `ai_edge_torch.convert` without a named signature
exports the model under the converter's default signature name
`"serving_default"`; `ai_edge_torch.signature(name, ...)` exports it under
`name`. -/
def conversion_signature_name (t : TestTrace) : String :=
  t.convert_signature.getD "serving_default"

/-- The normalization config `get_3b_model_config` allocates. -/
def qwen_norm_config_value : NormalizationConfig :=
  { type := NormalizationType.RMS_NORM, epsilon := (1 : ℚ) / 1000000 }

/-- C1: constructing `Qwen(c)` re-points the head-projection weight at the
embedding weight — after `__init__` the two `weight.data` references are the
same storage (they were distinct after the superclass constructor) — and
every other attribute set by the `TinyLlama` superclass constructor is left
exactly as the superclass constructor set it. -/
theorem qwen_init_repoints_lm_head (config : ModelConfig) :
    (Qwen_init config).lm_head_weight.data = (Qwen_init config).tok_embedding_weight.data ∧
    (TinyLlama_init config).lm_head_weight.data ≠ (TinyLlama_init config).tok_embedding_weight.data ∧
    Qwen_init config =
      { TinyLlama_init config with
        lm_head_weight :=
          { (TinyLlama_init config).lm_head_weight with
            data := (TinyLlama_init config).tok_embedding_weight.data } } :=
  ⟨rfl, by simp [TinyLlama_init], rfl⟩

/-- C2: `get_3b_model_config k` returns vocab_size 151936, num_layers 36,
max_seq_len 32768, embedding_dim 2048, kv_cache_max_len k (default 1024),
enable_hlfb true, an attention config with 16 heads, head_dim 128, 2 query
groups, rotary base 1000000, rotary percentage 1.0 and qkv bias, a GATED
SILU feed-forward of intermediate size 11008, and RMS-norm with epsilon
1e-06 for the pre-attention, post-attention and final norms. -/
theorem get_3b_model_config_spec (k : Int) :
    (get_3b_model_config k).view =
      { vocab_size := 151936
        num_layers := 36
        max_seq_len := 32768
        embedding_dim := 2048
        kv_cache_max_len := k
        enable_hlfb := true
        attn := some
          { num_heads := 16
            head_dim := 128
            num_query_groups := 2
            rotary_base := 1000000
            rotary_percentage := 1
            qkv_use_bias := true }
        ff := some
          { type := FeedForwardType.GATED
            activation := { type := ActivationType.SILU }
            intermediate_size := 11008 }
        pre_norm := some qwen_norm_config_value
        post_norm := some qwen_norm_config_value
        final_norm := some qwen_norm_config_value } ∧
    qwen_norm_config_value.epsilon = (1 : ℚ) / 1000000 ∧
    (get_3b_model_config default_kv_cache_max_len).config.kv_cache_max_len = 1024 :=
  ⟨rfl, rfl, rfl⟩

/-- C3: the 1.5B builder returns the 3B configuration with exactly four
fields changed (num_heads 12, intermediate_size 8960, num_layers 28,
embedding_dim 1536) and the 0.5B builder with exactly five (num_heads 14,
head_dim 64, intermediate_size 4864, num_layers 24, embedding_dim 896);
every other field — vocab_size, max_seq_len, num_query_groups, rotary_base,
qkv_use_bias, kv_cache_max_len = k, the norm epsilons — keeps its 3B
value. -/
theorem get_1_5b_and_0_5b_frame (k : Int) :
    ((get_1_5b_model_config k).view =
      (let v := (get_3b_model_config k).view
       { v with
         attn := v.attn.map (fun a => { a with num_heads := 12 })
         ff := v.ff.map (fun f => { f with intermediate_size := 8960 })
         num_layers := 28
         embedding_dim := 1536 })) ∧
    ((get_0_5b_model_config k).view =
      (let v := (get_3b_model_config k).view
       { v with
         attn := v.attn.map (fun a => { a with num_heads := 14, head_dim := 64 })
         ff := v.ff.map (fun f => { f with intermediate_size := 4864 })
         num_layers := 24
         embedding_dim := 896 })) :=
  ⟨rfl, rfl⟩

/-- C4: for every keyword-argument assignment accepted by
`get_3b_model_config` (the `kv_cache_max_len` keyword, or nothing),
`get_fake_model_config` returns the 3B configuration with exactly three
fields changed — vocab_size 128, num_layers 2, feed-forward
intermediate_size 64 — and everything else at its 3B value, in particular
embedding_dim 2048, num_heads 16, head_dim 128 and max_seq_len 32768. -/
theorem get_fake_model_config_frame (k : Int) :
    ((get_fake_model_config k).view =
      (let v := (get_3b_model_config k).view
       { v with
         vocab_size := 128
         num_layers := 2
         ff := v.ff.map (fun f => { f with intermediate_size := 64 }) })) ∧
    (get_fake_model_config k).view.embedding_dim = 2048 ∧
    (get_fake_model_config k).view.max_seq_len = 32768 ∧
    ((get_fake_model_config k).view.attn.map AttentionConfig.num_heads = some 16) ∧
    ((get_fake_model_config k).view.attn.map AttentionConfig.head_dim = some 128) ∧
    get_fake_model_config_noargs = get_fake_model_config 1024 :=
  ⟨rfl, rfl, rfl, rfl, rfl, rfl⟩

/-- C5: each test converts its model and asserts that
`compare_tflite_torch` returns True on the converted model against the
original on the very inputs the test built, with atol 1e-2 / rtol 1e-5 for
gemma, atol 1e-1 / rtol 1e-3 for gemma2 and atol 1e-3 / rtol 1e-3 for
phi2. -/
theorem tests_assert_compare_with_tolerances :
    test_gemma.asserts_compare_true = true ∧
    test_gemma.compare.atol = (1 : ℚ) / 100 ∧
    test_gemma.compare.rtol = (1 : ℚ) / 100000 ∧
    test_gemma.compare.tokens = test_gemma.sample_tokens ∧
    test_gemma.compare.input_pos = test_gemma.sample_input_pos ∧
    test_gemma.compare.kv = test_gemma.sample_kv ∧
    test_gemma2.asserts_compare_true = true ∧
    test_gemma2.compare.atol = (1 : ℚ) / 10 ∧
    test_gemma2.compare.rtol = (1 : ℚ) / 1000 ∧
    test_gemma2.compare.tokens = test_gemma2.sample_tokens ∧
    test_gemma2.compare.input_pos = test_gemma2.sample_input_pos ∧
    test_gemma2.compare.kv = test_gemma2.sample_kv ∧
    test_phi2.asserts_compare_true = true ∧
    test_phi2.compare.atol = (1 : ℚ) / 1000 ∧
    test_phi2.compare.rtol = (1 : ℚ) / 1000 ∧
    test_phi2.compare.tokens = test_phi2.sample_tokens ∧
    test_phi2.compare.input_pos = test_phi2.sample_input_pos ∧
    test_phi2.compare.kv = test_phi2.sample_kv :=
  ⟨rfl, rfl, rfl, rfl, rfl, rfl, rfl, rfl, rfl, rfl, rfl, rfl, rfl, rfl, rfl, rfl, rfl, rfl⟩

/-- C6: every test builds the same sample inputs — a (1, 10) token tensor
whose entries are 1, 2, 3, 4 followed by six zeros, input positions
0 through 9, and a KV cache from `KVCache.from_model_config` applied to that
test's fake model config. -/
theorem tests_sample_inputs :
    test_gemma.sample_tokens = [[1, 2, 3, 4, 0, 0, 0, 0, 0, 0]] ∧
    test_gemma2.sample_tokens = test_gemma.sample_tokens ∧
    test_phi2.sample_tokens = test_gemma.sample_tokens ∧
    test_gemma.sample_input_pos = [0, 1, 2, 3, 4, 5, 6, 7, 8, 9] ∧
    test_gemma2.sample_input_pos = test_gemma.sample_input_pos ∧
    test_phi2.sample_input_pos = test_gemma.sample_input_pos ∧
    test_gemma.sample_kv =
      KVCacheSource.from_model_config "gemma.get_fake_model_config()" ∧
    test_gemma2.sample_kv =
      KVCacheSource.from_model_config "gemma2.get_fake_model_config()" ∧
    test_phi2.sample_kv =
      KVCacheSource.from_model_config "phi2.get_fake_model_config()" :=
  ⟨by decide, rfl, rfl, by decide, rfl, rfl, rfl, rfl, rfl⟩

/-- C7: `test_gemma2` converts under the named signature "prefill" and
compares under "prefill"; `test_gemma` and `test_phi2` convert without a
named signature (hence under the converter's default "serving_default") and
compare under "serving_default"; in each test the conversion signature name
equals the comparison signature name. -/
theorem tests_signature_names :
    test_gemma2.convert_signature = some "prefill" ∧
    test_gemma2.compare.signature_name = "prefill" ∧
    test_gemma.convert_signature = none ∧
    test_gemma.compare.signature_name = "serving_default" ∧
    test_phi2.convert_signature = none ∧
    test_phi2.compare.signature_name = "serving_default" ∧
    conversion_signature_name test_gemma = test_gemma.compare.signature_name ∧
    conversion_signature_name test_gemma2 = test_gemma2.compare.signature_name ∧
    conversion_signature_name test_phi2 = test_phi2.compare.signature_name :=
  ⟨rfl, rfl, rfl, rfl, rfl, rfl, rfl, rfl, rfl⟩

/-- C8: in the config returned by `get_3b_model_config` — and in those of the
derived 1.5B, 0.5B and fake builders — the pre-attention, post-attention and
final norm references are the same object: the three addresses coincide, and
after mutating the object through the pre-attention reference with an
arbitrary field update `f`, the mutated value is what is observed through
the post-attention and final references. -/
theorem norm_config_aliasing (k : Int) (f : NormalizationConfig → NormalizationConfig) :
    (((get_3b_model_config k).config.block_config 0).pre_attention_norm_config =
        ((get_3b_model_config k).config.block_config 0).post_attention_norm_config ∧
      ((get_3b_model_config k).config.block_config 0).post_attention_norm_config =
        (get_3b_model_config k).config.final_norm_config) ∧
    (((get_1_5b_model_config k).config.block_config 0).pre_attention_norm_config =
        ((get_1_5b_model_config k).config.block_config 0).post_attention_norm_config ∧
      ((get_1_5b_model_config k).config.block_config 0).post_attention_norm_config =
        (get_1_5b_model_config k).config.final_norm_config) ∧
    (((get_0_5b_model_config k).config.block_config 0).pre_attention_norm_config =
        ((get_0_5b_model_config k).config.block_config 0).post_attention_norm_config ∧
      ((get_0_5b_model_config k).config.block_config 0).post_attention_norm_config =
        (get_0_5b_model_config k).config.final_norm_config) ∧
    (((get_fake_model_config k).config.block_config 0).pre_attention_norm_config =
        ((get_fake_model_config k).config.block_config 0).post_attention_norm_config ∧
      ((get_fake_model_config k).config.block_config 0).post_attention_norm_config =
        (get_fake_model_config k).config.final_norm_config) ∧
    (((get_3b_model_config k).heap.updNorm
          ((get_3b_model_config k).config.block_config 0).pre_attention_norm_config f).normAt
        ((get_3b_model_config k).config.block_config 0).post_attention_norm_config =
      some (f qwen_norm_config_value) ∧
      ((get_3b_model_config k).heap.updNorm
          ((get_3b_model_config k).config.block_config 0).pre_attention_norm_config f).normAt
        (get_3b_model_config k).config.final_norm_config =
      some (f qwen_norm_config_value)) :=
  ⟨⟨rfl, rfl⟩, ⟨rfl, rfl⟩, ⟨rfl, rfl⟩, ⟨rfl, rfl⟩, ⟨rfl, rfl⟩⟩

/-- C9: the qwen module's `TENSOR_NAMES = copy.copy(tiny_llama.TENSOR_NAMES)`
followed by `TENSOR_NAMES.lm_head = None` sets `lm_head` to `None` only on
the fresh shallow copy: after importing qwen, the object `tiny_llama`'s
table still points at is unchanged in every attribute (its `lm_head` is
still "lm_head"), while qwen's copy differs from it in `lm_head` alone. -/
theorem import_qwen_frame :
    (import_qwen state_after_tiny_llama_import).names_heap[
        (import_qwen state_after_tiny_llama_import).tiny_llama_TENSOR_NAMES]? =
      some tiny_llama_TENSOR_NAMES_value ∧
    tiny_llama_TENSOR_NAMES_value.lm_head = some "lm_head" ∧
    (import_qwen state_after_tiny_llama_import).qwen_TENSOR_NAMES = some 1 ∧
    (import_qwen state_after_tiny_llama_import).names_heap[1]? =
      some { tiny_llama_TENSOR_NAMES_value with lm_head := none } :=
  ⟨rfl, rfl, rfl, rfl⟩

/-- C10: `_build_model` — and hence the 3B, 1.5B and 0.5B builders — loads
with `strict=False`, so for every checkpoint (in particular one with no
`lm_head` entry) the load succeeds, and the model is returned in eval mode;
with `strict=True` and a required tensor missing the modelled load would
fail instead. -/
theorem build_model_nonstrict_eval (checkpoint_keys : List String)
    (config : ModelConfig) (k : Int) :
    build_model_impl checkpoint_keys config =
      Except.ok ((Qwen_init config).evalMode) ∧
    ((Qwen_init config).evalMode).training = false ∧
    build_3b_model checkpoint_keys k =
      Except.ok ((Qwen_init (get_3b_model_config k).config).evalMode) ∧
    build_1_5b_model checkpoint_keys k =
      Except.ok ((Qwen_init (get_1_5b_model_config k).config).evalMode) ∧
    build_0_5b_model checkpoint_keys k =
      Except.ok ((Qwen_init (get_0_5b_model_config k).config).evalMode) ∧
    ModelLoader_load true (required_checkpoint_names tiny_llama_TENSOR_NAMES_value) []
        (Qwen_init config) =
      Except.error "missing tensors in checkpoint" :=
  ⟨rfl, rfl, rfl, rfl, rfl, rfl⟩

end AiEdge
